import Mathlib

/-!
Verification of the flight-dashboard data pipeline.

This development gives a shallow embedding of the enrichment and
aggregation logic of the dashboard (pages/overview.py,
pages/delay_analysis.py, pages/cancelled_flights.py) and proves, or
refutes, the stated properties of that logic.  Dataframes are modelled
as lists of records, reference tables as association lists, missing
values (pandas NaN) as `Option`, and the fallible pandas `sample`
call as an `Option`-returning function.
-/

namespace FlightDash

/-! ## Scheduled-hour extraction

The pages compute `SCHED_HOUR` / `HOUR` as
`int(str(int(x)).zfill(4)[:2])`: decimal digits of the value,
left-padded with zeros to four characters, first two characters read
back as a number. -/

/-- Decimal digits of `n`, most significant first, computed with a fuel
argument so the recursion is structural.  `digitsAux (n+1) n` always has
enough fuel. -/
def digitsAux : Nat → Nat → List Nat
  | 0, _ => []
  | fuel+1, n => if n < 10 then [n] else digitsAux fuel (n / 10) ++ [n % 10]

/-- Digits of the Python string `str(int(x))`: most significant first,
`[0]` for zero. -/
def natDigits (n : Nat) : List Nat := digitsAux (n + 1) n

/-- Model of `int(str(int(x)).zfill(4)[:2])` from
delay_analysis.py line 17 and cancelled_flights.py line 23. -/
def schedHour (x : Nat) : Nat :=
  let ds := natDigits x
  let padded := List.replicate (4 - ds.length) 0 ++ ds
  match padded.take 2 with
  | [a, b] => 10 * a + b
  | [a] => a
  | _ => 0

lemma digitsAux_1 (fuel n : Nat) (hf : 1 ≤ fuel) (h : n < 10) :
    digitsAux fuel n = [n] := by
  cases fuel with
  | zero => omega
  | succ f => simp [digitsAux, h]

lemma digitsAux_2 (fuel n : Nat) (hf : 2 ≤ fuel) (h10 : 10 ≤ n) (h : n < 100) :
    digitsAux fuel n = [n / 10, n % 10] := by
  cases fuel with
  | zero => omega
  | succ f =>
    have hn : ¬ n < 10 := by omega
    simp only [digitsAux, hn, if_false]
    rw [digitsAux_1 f (n / 10) (by omega) (by omega)]
    rfl

lemma digitsAux_3 (fuel n : Nat) (hf : 3 ≤ fuel) (h10 : 100 ≤ n) (h : n < 1000) :
    digitsAux fuel n = [n / 100, n / 10 % 10, n % 10] := by
  cases fuel with
  | zero => omega
  | succ f =>
    have hn : ¬ n < 10 := by omega
    simp only [digitsAux, hn, if_false]
    rw [digitsAux_2 f (n / 10) (by omega) (by omega) (by omega)]
    have hdd : n / 10 / 10 = n / 100 := by omega
    rw [hdd]
    rfl

lemma digitsAux_4 (fuel n : Nat) (hf : 4 ≤ fuel) (h10 : 1000 ≤ n) (h : n < 10000) :
    digitsAux fuel n = [n / 1000, n / 100 % 10, n / 10 % 10, n % 10] := by
  cases fuel with
  | zero => omega
  | succ f =>
    have hn : ¬ n < 10 := by omega
    simp only [digitsAux, hn, if_false]
    rw [digitsAux_3 f (n / 10) (by omega) (by omega) (by omega)]
    have h1 : n / 10 / 100 = n / 1000 := by omega
    have h2 : n / 10 / 10 = n / 100 := by omega
    rw [h1, h2]
    rfl

lemma schedHour_eq_div100 (x : Nat) (h : x < 10000) : schedHour x = x / 100 := by
  rcases Nat.lt_or_ge x 10 with h1 | h1
  · have hd : natDigits x = [x] := digitsAux_1 _ _ (by omega) h1
    simp [schedHour, hd]
    omega
  rcases Nat.lt_or_ge x 100 with h2 | h2
  · have hd : natDigits x = [x / 10, x % 10] := digitsAux_2 _ _ (by omega) h1 h2
    simp [schedHour, hd]
    omega
  rcases Nat.lt_or_ge x 1000 with h3 | h3
  · have hd : natDigits x = [x / 100, x / 10 % 10, x % 10] := digitsAux_3 _ _ (by omega) h2 h3
    simp [schedHour, hd]
  · have harith : 10 * (x / 1000) + x / 100 % 10 = x / 100 := by omega
    have hd : natDigits x = [x / 1000, x / 100 % 10, x / 10 % 10, x % 10] :=
      digitsAux_4 _ _ (by omega) h3 h
    simp [schedHour, hd, harith]

/-! ## Data model

One record per row of the three CSV tables.  Numeric columns that can
be missing in the CSV are `Option`-valued; coordinates are only ever
membership-tested by the verified claims, so their numeric type is
immaterial. -/

structure Airport where
  iata : String
  city : String
  latitude : Option Int
  longitude : Option Int
deriving DecidableEq

structure Flight where
  airline : String
  tailNumber : String
  originAirport : String
  destinationAirport : String
  scheduledDeparture : Nat
  departureDelay : Option Int
  distance : Int
  dayOfWeek : Nat
  month : Nat
  cancelled : Bool
  cancellationReason : Option String
deriving DecidableEq

/-! ## Reference-data resolver

`dict(zip(keys, values))` keeps the last value for a duplicated key;
`.map(dict)` on a missing key yields NaN, modelled as `none`. -/

/-- Lookup in a Python dict built by `dict(zip(ks, vs))`: the last
binding of a key wins, absent keys give `none`. -/
def dictLookup {α : Type} (ps : List (String × α)) (k : String) : Option α :=
  ps.foldl (fun acc p => if p.1 = k then some p.2 else acc) none

/-- `city_map = dict(zip(airports['IATA_CODE'], airports['CITY']))`. -/
def cityMap (aps : List Airport) (k : String) : Option String :=
  dictLookup (aps.map (fun a => (a.iata, a.city))) k

/-- Index of `airport_coords = airports.set_index('IATA_CODE')[['LATITUDE',
'LONGITUDE']].dropna()`: the airport codes having both coordinates. -/
def coordsIndex (aps : List Airport) : List String :=
  (aps.filter (fun a => a.latitude.isSome && a.longitude.isSome)).map (fun a => a.iata)

/-! ## Enrichment pipeline -/

/-- `DAY_NAME` mapping from cancelled_flights.py line 22 / overview.py line 220. -/
def dayName : Nat → Option String
  | 1 => some "Mon"
  | 2 => some "Tue"
  | 3 => some "Wed"
  | 4 => some "Thu"
  | 5 => some "Fri"
  | 6 => some "Sat"
  | 7 => some "Sun"
  | _ => none

/-- `MONTH_NAME` mapping from overview.py lines 221-224. -/
def monthName : Nat → Option String
  | 1 => some "Jan"
  | 2 => some "Feb"
  | 3 => some "Mar"
  | 4 => some "Apr"
  | 5 => some "May"
  | 6 => some "Jun"
  | 7 => some "Jul"
  | 8 => some "Aug"
  | 9 => some "Sep"
  | 10 => some "Oct"
  | 11 => some "Nov"
  | 12 => some "Dec"
  | _ => none

/-- `ON_TIME` label from delay_analysis.py line 20:
`'On Time' if x <= 0 else 'Delayed'`.  A missing delay is pandas NaN,
and `NaN <= 0` is false in Python, so the `none` case yields
"Delayed". -/
def onTimeLabel : Option Int → String
  | some d => if d ≤ 0 then "On Time" else "Delayed"
  | none => "Delayed"

/-- `ROUTE = ORIGIN_CITY + " → " + DEST_CITY`: string concatenation with
a NaN operand is NaN in pandas, so the label is absent as soon as either
city lookup misses. -/
def routeOf (aps : List Airport) (f : Flight) : Option String :=
  match cityMap aps f.originAirport, cityMap aps f.destinationAirport with
  | some o, some d => some (o ++ " → " ++ d)
  | _, _ => none

/-- The derived columns added by the pages (union of overview.py lines
216-224 and delay_analysis.py lines 14-20). -/
structure Derived where
  airlineName : Option String
  originCity : Option String
  destCity : Option String
  route : Option String
  dayNameCol : Option String
  monthNameCol : Option String
  schedHourCol : Nat
  onTime : String
deriving DecidableEq

/-- Compute every derived column from the source columns and the two
reference tables. -/
def deriveCols (am : List (String × String)) (aps : List Airport) (f : Flight) : Derived where
  airlineName := dictLookup am f.airline
  originCity := cityMap aps f.originAirport
  destCity := cityMap aps f.destinationAirport
  route := routeOf aps f
  dayNameCol := dayName f.dayOfWeek
  monthNameCol := monthName f.month
  schedHourCol := schedHour f.scheduledDeparture
  onTime := onTimeLabel f.departureDelay

/-- An enriched row: the untouched source columns plus the derived ones. -/
structure Enriched where
  src : Flight
  derived : Derived
deriving DecidableEq

/-- First application of the enrichment to a source row. -/
def enrich (am : List (String × String)) (aps : List Airport) (f : Flight) : Enriched :=
  ⟨f, deriveCols am aps f⟩

/-- Re-running the enrichment over an already-enriched row: the column
assignments read only source columns and overwrite the derived ones. -/
def reenrich (am : List (String × String)) (aps : List Airport) (e : Enriched) : Enriched :=
  ⟨e.src, deriveCols am aps e.src⟩

/-! ## Random sampling

`df.sample(n, random_state=s)` draws `n` rows without replacement using
a generator freshly seeded with `s`; it raises `ValueError` when `n`
exceeds the population, modelled as `none`.  When no `random_state` is
given pandas falls back to the ambient global generator state; the
model keeps that state explicit so that seeding behaviour is
observable. -/

/-- One step of a linear congruential generator standing in for the
library's pseudo-random stream; the verified claims depend only on its
determinism. -/
def lcgNext (s : Nat) : Nat := (s * 1664525 + 1013904223) % 4294967296

/-- Draw `n` elements without replacement, driven by the generator
state. -/
def drawAux {α : Type} : Nat → Nat → List α → List α
  | 0, _, _ => []
  | _+1, _, [] => []
  | n+1, s, x :: xs =>
      let pool := x :: xs
      let i := s % pool.length
      pool.getD i x :: drawAux n (lcgNext s) (pool.eraseIdx i)

/-- `rows.sample(n, random_state=seed)`: `none` models the
`ValueError` pandas raises when `n` exceeds the number of rows. -/
def seededSample {α : Type} (seed n : Nat) (rows : List α) : Option (List α) :=
  if n ≤ rows.length then some (drawAux n (lcgNext seed) rows) else none

/-- A `sample` call threaded through the ambient global generator state
`g`: an explicit `random_state` ignores and preserves `g`, while
omitting it would consume `g`. -/
def sampleCall {α : Type} (g : Nat) (seed : Option Nat) (n : Nat) (rows : List α) :
    Option (List α) × Nat :=
  match seed with
  | some s => (seededSample s n rows, g)
  | none => (seededSample g n rows, lcgNext g)

/-! ## Map chart functions (overview.show_map, cancelled_flights.cancel_map) -/

/-- The `isin(airport_coords.index)` test applied to both endpoints. -/
def mappable (aps : List Airport) (f : Flight) : Bool :=
  decide (f.originAirport ∈ coordsIndex aps) && decide (f.destinationAirport ∈ coordsIndex aps)

/-- `show_map`: `df = flights if selected_airline is None else
flights[flights['AIRLINE'] == selected_airline]`. -/
def showMapDf (fs : List Flight) (sel : Option String) : List Flight :=
  match sel with
  | none => fs
  | some a => fs.filter (fun f => f.airline = a)

/-- `show_map`: rows of `df` whose two endpoints are in the coordinate
index. -/
def showMapPool (aps : List Airport) (fs : List Flight) (sel : Option String) : List Flight :=
  (showMapDf fs sel).filter (mappable aps)

/-- `show_map`: the requested sample size `min(300, len(df))` — note
`df`, the frame before the coordinate filter. -/
def showMapSampleSize (fs : List Flight) (sel : Option String) : Nat :=
  min 300 (showMapDf fs sel).length

/-- The sampling step of `show_map`, threaded through ambient generator
state `g`; the source passes `random_state=42`. -/
def showMapCall (g : Nat) (aps : List Airport) (fs : List Flight) (sel : Option String) :
    Option (List Flight) × Nat :=
  sampleCall g (some 42) (showMapSampleSize fs sel) (showMapPool aps fs sel)

/-- The rows sampled by `show_map` (`none` when the call raises). -/
def showMapSample (aps : List Airport) (fs : List Flight) (sel : Option String) :
    Option (List Flight) :=
  (showMapCall 0 aps fs sel).1

/-- `cancel_map`: `df = flights[flights['CANCELLED'] == 1]`. -/
def cancelMapDf (fs : List Flight) : List Flight :=
  fs.filter (fun f => f.cancelled)

/-- `cancel_map`: cancelled rows with both endpoints in the coordinate
index. -/
def cancelMapPool (aps : List Airport) (fs : List Flight) : List Flight :=
  (cancelMapDf fs).filter (mappable aps)

/-- `cancel_map`: `min(300, len(df))`, where `len(df)` is evaluated
before `df` is rebound, i.e. on the frame before the coordinate
filter. -/
def cancelMapSampleSize (fs : List Flight) : Nat :=
  min 300 (cancelMapDf fs).length

/-- The sampling step of `cancel_map` with explicit ambient generator
state; the source passes `random_state=42`. -/
def cancelMapCall (g : Nat) (aps : List Airport) (fs : List Flight) :
    Option (List Flight) × Nat :=
  sampleCall g (some 42) (cancelMapSampleSize fs) (cancelMapPool aps fs)

/-- The rows sampled by `cancel_map` (`none` when the call raises). -/
def cancelMapSample (aps : List Airport) (fs : List Flight) : Option (List Flight) :=
  (cancelMapCall 0 aps fs).1

/-! ## Distance bucketing (delay_analysis.delay_by_distance_range) -/

/-- `pd.cut` with the default `right=True` and
`include_lowest=False`: value `d` belongs to the first interval
`(lo, hi]` among consecutive bin edges; outside every interval the
result is NaN (`none`). -/
def pdCutAux (d : Int) : List Int → List String → Option String
  | lo :: hi :: rest, lab :: labs =>
      if lo < d ∧ d ≤ hi then some lab else pdCutAux d (hi :: rest) labs
  | _, _ => none

/-- Bin edges from delay_analysis.py line 94. -/
def cutBins : List Int := [0, 500, 1000, 1500, 2000, 2500, 3000]

/-- Bin labels from delay_analysis.py line 95. -/
def cutLabels : List String :=
  ["<500", "500-999", "1000-1499", "1500-1999", "2000-2499", "2500+"]

/-- `DISTANCE_BIN = pd.cut(df['DISTANCE'], bins=bins, labels=labels)`. -/
def distanceBin (d : Int) : Option String := pdCutAux d cutBins cutLabels

/-- The pre-filter of `delay_by_distance_range`: not cancelled, matching
hour, `DISTANCE < 3000`. -/
def distRows (fs : List Flight) (hour : Nat) : List Flight :=
  fs.filter (fun f =>
    !f.cancelled && decide (schedHour f.scheduledDeparture = hour) && decide (f.distance < 3000))

/-! ## Hour-filtered row selections (delay_analysis callbacks) -/

/-- Rows used by `update_boxplot`: `SCHED_HOUR == hour` and
`CANCELLED == 0`. -/
def boxplotRows (fs : List Flight) (hour : Nat) : List Flight :=
  fs.filter (fun f => decide (schedHour f.scheduledDeparture = hour) && !f.cancelled)

/-- Rows used by `delay_violin`: `SCHED_HOUR == hour` and
`DEPARTURE_DELAY.between(-10, 180)` (false for a missing delay). -/
def violinRows (fs : List Flight) (hour : Nat) : List Flight :=
  fs.filter (fun f =>
    decide (schedHour f.scheduledDeparture = hour) &&
    match f.departureDelay with
    | some d => decide (-10 ≤ d ∧ d ≤ 180)
    | none => false)

/-- Rows used by `on_time_vs_delayed`: `CANCELLED == 0` and
`SCHED_HOUR == hour`. -/
def onTimeRows (fs : List Flight) (hour : Nat) : List Flight :=
  fs.filter (fun f => !f.cancelled && decide (schedHour f.scheduledDeparture = hour))

/-- How many rows of `on_time_vs_delayed`'s pie carry a given `ON_TIME`
label (one summand of its `value_counts`). -/
def countLabel (fs : List Flight) (hour : Nat) (lab : String) : Nat :=
  ((onTimeRows fs hour).filter (fun f => onTimeLabel f.departureDelay = lab)).length

/-! ## Rate aggregates (cancelled_flights.py)

`groupby(key).agg(cancelled=('CANCELLED','sum'), total=('CANCELLED','count'))`
followed by `rate = 100 * cancelled / total`.  Pandas drops rows whose
key is NaN (`none`) and only materialises groups that actually occur;
the key order (pandas sorts; this model keeps first occurrence) is
immaterial to the verified properties. -/

/-- Grouped sum/count of the cancelled indicator: one entry
`(key, cancelled, total)` per occurring group. -/
def groupAgg {κ : Type} [DecidableEq κ] (key : Flight → Option κ) (fs : List Flight) :
    List (κ × Nat × Nat) :=
  (fs.filterMap key).dedup.map (fun k =>
    (k, ((fs.filter (fun f => decide (key f = some k))).filter (fun f => f.cancelled)).length,
        (fs.filter (fun f => decide (key f = some k))).length))

/-- `df['rate'] = 100 * df['cancelled'] / df['total']`. -/
def rate (c t : Nat) : ℚ := 100 * c / t

/-- `cancel_day_bar`: cancellation rate grouped by `DAY_NAME`. -/
def cancelDayBarAgg (fs : List Flight) : List (String × Nat × Nat) :=
  groupAgg (fun f => dayName f.dayOfWeek) fs

/-- `cancel_heat`: cancellation rate grouped by
`['AIRLINE_NAME', 'DAY_NAME']`; a row with either key missing is
dropped by the groupby. -/
def cancelHeatAgg (am : List (String × String)) (fs : List Flight) :
    List ((String × String) × Nat × Nat) :=
  groupAgg (fun f =>
    match dictLookup am f.airline, dayName f.dayOfWeek with
    | some a, some d => some (a, d)
    | _, _ => none) fs

/-- `cancel_rate_bar`: cancellation rate grouped by `ROUTE`. -/
def cancelRateBarAgg (aps : List Airport) (fs : List Flight) : List (String × Nat × Nat) :=
  groupAgg (routeOf aps) fs

/-! ## City and route label streams (value-count inputs) -/

/-- The multiset of route labels feeding any `ROUTE` value count; rows
with an absent label are dropped by `value_counts`/`groupby`. -/
def routeLabels (aps : List Airport) (fs : List Flight) : List String :=
  fs.filterMap (routeOf aps)

/-- The multiset of origin-city labels feeding `origin_treemap`. -/
def originCityLabels (aps : List Airport) (fs : List Flight) : List String :=
  fs.filterMap (fun f => cityMap aps f.originAirport)

/-- The multiset of destination-city labels feeding `dest_treemap`. -/
def destCityLabels (aps : List Airport) (fs : List Flight) : List String :=
  fs.filterMap (fun f => cityMap aps f.destinationAirport)

/-- `value_counts` over a label stream: one `(label, count)` entry per
distinct label (pandas orders by descending count; the order is
immaterial to the verified properties). -/
def valueCounts {α : Type} [DecidableEq α] (l : List α) : List (α × Nat) :=
  l.dedup.map (fun k => (k, (l.filter (fun x => decide (x = k))).length))

/-- `origin_treemap`'s aggregate: `ORIGIN_CITY.value_counts()`. -/
def originCityCounts (aps : List Airport) (fs : List Flight) : List (String × Nat) :=
  valueCounts (originCityLabels aps fs)

/-! ## Helper lemmas -/

lemma foldl_dict_no_match {α : Type} (ps : List (String × α)) (k : String)
    (acc : Option α) (h : ∀ p ∈ ps, p.1 ≠ k) :
    ps.foldl (fun acc p => if p.1 = k then some p.2 else acc) acc = acc := by
  induction ps generalizing acc with
  | nil => rfl
  | cons p ps ih =>
    have hp : p.1 ≠ k := h p (List.mem_cons_self _ _)
    simp only [List.foldl_cons, if_neg hp]
    exact ih acc (fun q hq => h q (List.mem_cons_of_mem _ hq))

lemma dictLookup_eq_none {α : Type} (ps : List (String × α)) (k : String)
    (h : ∀ p ∈ ps, p.1 ≠ k) : dictLookup ps k = none :=
  foldl_dict_no_match ps k none h

lemma cityMap_eq_none (aps : List Airport) (c : String)
    (h : ∀ a ∈ aps, a.iata ≠ c) : cityMap aps c = none := by
  apply dictLookup_eq_none
  intro p hp
  rcases List.mem_map.mp hp with ⟨a, ha, rfl⟩
  exact h a ha

lemma not_mem_coordsIndex (aps : List Airport) (c : String)
    (h : ∀ a ∈ aps, a.iata ≠ c) : c ∉ coordsIndex aps := by
  intro hc
  rcases List.mem_map.mp hc with ⟨a, ha, rfl⟩
  exact h a (List.mem_filter.mp ha).1 rfl

lemma routeOf_eq_none_left (aps : List Airport) (f : Flight)
    (h : cityMap aps f.originAirport = none) : routeOf aps f = none := by
  unfold routeOf
  rw [h]

lemma routeOf_eq_none_right (aps : List Airport) (f : Flight)
    (h : cityMap aps f.destinationAirport = none) : routeOf aps f = none := by
  unfold routeOf
  rw [h]
  cases cityMap aps f.originAirport <;> rfl

lemma mappable_eq_false (aps : List Airport) (f : Flight) (c : String)
    (habs : ∀ a ∈ aps, a.iata ≠ c)
    (hor : f.originAirport = c ∨ f.destinationAirport = c) :
    mappable aps f = false := by
  have hnc := not_mem_coordsIndex aps c habs
  rcases hor with h | h <;> simp [mappable, h, hnc]

lemma groupAgg_mem {κ : Type} [DecidableEq κ] (key : Flight → Option κ)
    (fs : List Flight) (e : κ × Nat × Nat) (he : e ∈ groupAgg key fs) :
    e.2.1 ≤ e.2.2 ∧ 0 < e.2.2 := by
  unfold groupAgg at he
  rcases List.mem_map.mp he with ⟨k, hk, rfl⟩
  refine ⟨List.length_filter_le _ _, ?_⟩
  rw [List.mem_dedup] at hk
  rcases List.mem_filterMap.mp hk with ⟨f, hf, hkey⟩
  have hmem : f ∈ fs.filter (fun f => decide (key f = some k)) :=
    List.mem_filter.mpr ⟨hf, by simp [hkey]⟩
  exact List.length_pos.mpr (List.ne_nil_of_mem hmem)

lemma rate_bounds (c t : Nat) (hct : c ≤ t) (ht : 0 < t) :
    0 ≤ rate c t ∧ rate c t ≤ 100 := by
  have ht' : (0 : ℚ) < t := by exact_mod_cast ht
  have hct' : (c : ℚ) ≤ t := by exact_mod_cast hct
  constructor
  · unfold rate
    positivity
  · unfold rate
    rw [div_le_iff₀ ht']
    nlinarith

/-! ## Concrete fixtures used by witnesses and counterexamples -/

/-- An airport with both coordinates present. -/
def apLAX : Airport :=
  { iata := "LAX", city := "Los Angeles", latitude := some 34, longitude := some (-118) }

/-- A non-cancelled flight of airline "AA" between two airports that
carry no coordinates. -/
def fAA : Flight :=
  { airline := "AA", tailNumber := "N100", originAirport := "AAA",
    destinationAirport := "BBB", scheduledDeparture := 900, departureDelay := some 3,
    distance := 500, dayOfWeek := 1, month := 1, cancelled := false,
    cancellationReason := none }

/-- A cancelled flight between two airports that carry no coordinates. -/
def fCX : Flight :=
  { airline := "AA", tailNumber := "N101", originAirport := "AAA",
    destinationAirport := "BBB", scheduledDeparture := 900, departureDelay := none,
    distance := 500, dayOfWeek := 1, month := 1, cancelled := true,
    cancellationReason := some "B" }

/-- A flight from LAX to a code "XXX" absent from the airport table. -/
def fToXXX : Flight :=
  { airline := "AA", tailNumber := "N102", originAirport := "LAX",
    destinationAirport := "XXX", scheduledDeparture := 600, departureDelay := some 5,
    distance := 1000, dayOfWeek := 1, month := 1, cancelled := false,
    cancellationReason := none }

/-- A non-cancelled flight scheduled at the HHMM value 2400. -/
def f2400 : Flight :=
  { airline := "AA", tailNumber := "N103", originAirport := "AAA",
    destinationAirport := "BBB", scheduledDeparture := 2400, departureDelay := some 1,
    distance := 500, dayOfWeek := 1, month := 1, cancelled := false,
    cancellationReason := none }

/-- A non-cancelled flight at hour 12 whose departure delay is missing. -/
def fNoDelay : Flight :=
  { airline := "AA", tailNumber := "N104", originAirport := "AAA",
    destinationAirport := "BBB", scheduledDeparture := 1200, departureDelay := none,
    distance := 500, dayOfWeek := 1, month := 1, cancelled := false,
    cancellationReason := none }

/-- A non-cancelled flight at hour 12 with distance exactly 3000. -/
def f3000 : Flight :=
  { airline := "AA", tailNumber := "N105", originAirport := "AAA",
    destinationAirport := "BBB", scheduledDeparture := 1234, departureDelay := some 2,
    distance := 3000, dayOfWeek := 1, month := 1, cancelled := false,
    cancellationReason := none }

/-! ## Claim theorems -/

/-- C1: for every flight record (scheduled departure an HHMM value, in
particular below 10000), the derived scheduled hour equals the integer
division by 100 of the scheduled departure after left-padding it to 4
digits (padding does not change the numeric value). -/
theorem C1_scheduled_hour_is_div100 (x : Nat) (h : x < 10000) :
    schedHour x = x / 100 :=
  schedHour_eq_div100 x h

/-- C1 witness: at the spec's own example, SCHEDULED_DEPARTURE = 555
gives scheduled hour 5, not 0. -/
theorem C1_scheduled_hour_witness : schedHour 555 = 5 :=
  (C1_scheduled_hour_is_div100 555 (by decide)).trans (by decide)

/-- C7: the geo-sample is seeded per call with the constant 42, so the
sampled row set of `show_map` and of `cancel_map` is independent of the
ambient random-generator state: two invocations on the same dataset and
filter select exactly the same rows. -/
theorem C7_geo_sample_deterministic (g1 g2 : Nat) (aps : List Airport)
    (fs : List Flight) (sel : Option String) :
    (showMapCall g1 aps fs sel).1 = (showMapCall g2 aps fs sel).1 ∧
    (cancelMapCall g1 aps fs).1 = (cancelMapCall g2 aps fs).1 :=
  ⟨rfl, rfl⟩

/-- C8: the enrichment pipeline is deterministic and idempotent:
re-running the derivation over an already-enriched table (it reads only
source columns and overwrites the derived ones) reproduces the same
derived columns. -/
theorem C8_enrichment_idempotent (am : List (String × String)) (aps : List Airport)
    (fs : List Flight) :
    (fs.map (enrich am aps)).map (reenrich am aps) = fs.map (enrich am aps) := by
  simp [List.map_map, Function.comp_def, reenrich, enrich]

/-- C9: a flight whose departure delay is missing gets the ON_TIME label
"Delayed" (pandas `NaN <= 0` is false), and such a non-cancelled flight
at the selected hour adds one to the "Delayed" count of
`on_time_vs_delayed`. -/
theorem C9_missing_delay_is_delayed (fs : List Flight) (hour : Nat) (f : Flight)
    (hc : f.cancelled = false) (hh : schedHour f.scheduledDeparture = hour)
    (hd : f.departureDelay = none) :
    onTimeLabel f.departureDelay = "Delayed" ∧
    countLabel (f :: fs) hour "Delayed" = countLabel fs hour "Delayed" + 1 := by
  constructor
  · rw [hd]
    rfl
  · simp [countLabel, onTimeRows, List.filter_cons, hc, hh, hd, onTimeLabel]

/-- C9 witness: a concrete non-cancelled hour-12 flight with missing
delay is labelled "Delayed" and counted once. -/
theorem C9_missing_delay_witness :
    onTimeLabel fNoDelay.departureDelay = "Delayed" ∧
    countLabel [fNoDelay] 12 "Delayed" = countLabel [] 12 "Delayed" + 1 :=
  C9_missing_delay_is_delayed [] 12 fNoDelay rfl (by decide) rfl

/-- C10: the scheduled-hour extraction maps SCHEDULED_DEPARTURE = 2400
to hour 24, which no slider value 0-23 can select, so such flights are
excluded from the hour-filtered row selections of the boxplot, the
distance chart, the violin and the on-time pie. -/
theorem C10_hour24_excluded (hour : Nat) (fs : List Flight) (f : Flight)
    (hh : hour ≤ 23) (hf : f.scheduledDeparture = 2400) :
    schedHour 2400 = 24 ∧
    f ∉ boxplotRows fs hour ∧ f ∉ distRows fs hour ∧
    f ∉ violinRows fs hour ∧ f ∉ onTimeRows fs hour := by
  have h24 : schedHour 2400 = 24 := by decide
  refine ⟨h24, ?_, ?_, ?_, ?_⟩
  · intro hmem
    have hcond := (List.mem_filter.mp hmem).2
    simp [hf, h24] at hcond
    omega
  · intro hmem
    have hcond := (List.mem_filter.mp hmem).2
    simp [hf, h24] at hcond
    omega
  · intro hmem
    have hcond := (List.mem_filter.mp hmem).2
    simp [hf, h24] at hcond
    omega
  · intro hmem
    have hcond := (List.mem_filter.mp hmem).2
    simp [hf, h24] at hcond
    omega

/-- C10 witness: the concrete 2400-departure flight is excluded from all
three hour-12 row selections. -/
theorem C10_hour24_witness :
    schedHour 2400 = 24 ∧
    f2400 ∉ boxplotRows [f2400] 12 ∧ f2400 ∉ distRows [f2400] 12 ∧
    f2400 ∉ violinRows [f2400] 12 ∧ f2400 ∉ onTimeRows [f2400] 12 :=
  C10_hour24_excluded 12 [f2400] f2400 (by decide) rfl

/-- C5: every rate aggregate (cancellation rate by day, by
airline-and-day, by route), computed as 100 * sum(cancelled) / count per
group, lies in [0, 100] for every group present, and every group in the
output has a positive row count (empty groups never materialise, so no
division by zero / NaN reaches the output). -/
theorem C5_rates_bounded (am : List (String × String)) (aps : List Airport)
    (fs : List Flight) :
    (∀ e ∈ cancelDayBarAgg fs,
      0 < e.2.2 ∧ 0 ≤ rate e.2.1 e.2.2 ∧ rate e.2.1 e.2.2 ≤ 100) ∧
    (∀ e ∈ cancelHeatAgg am fs,
      0 < e.2.2 ∧ 0 ≤ rate e.2.1 e.2.2 ∧ rate e.2.1 e.2.2 ≤ 100) ∧
    (∀ e ∈ cancelRateBarAgg aps fs,
      0 < e.2.2 ∧ 0 ≤ rate e.2.1 e.2.2 ∧ rate e.2.1 e.2.2 ≤ 100) := by
  refine ⟨?_, ?_, ?_⟩ <;> intro e he
  all_goals
    obtain ⟨hct, ht⟩ := groupAgg_mem _ _ _ he
    obtain ⟨h0, h100⟩ := rate_bounds _ _ hct ht
    exact ⟨ht, h0, h100⟩

/-- C5 witness: on a one-row table (cancelled, Monday) the day aggregate
holds the group ("Mon", 1, 1), whose rate bounds follow from the
theorem. -/
theorem C5_rates_witness : 0 < 1 ∧ (0 : ℚ) ≤ rate 1 1 ∧ rate 1 1 ≤ 100 :=
  (C5_rates_bounded [] [] [fCX]).1 ("Mon", 1, 1) (by decide)

/-- C6 counterexample: the claim says a flight with an endpoint absent
from the airport table "appears in no city/route aggregate"; but a
flight whose destination "XXX" is unknown while its origin resolves to
"Los Angeles" is still counted by the origin-city aggregate
(`origin_treemap`), even though its route label is absent. -/
theorem C6_counterexample :
    ([apLAX].all (fun a => a.iata != "XXX")) = true ∧
    fToXXX.destinationAirport = "XXX" ∧
    routeOf [apLAX] fToXXX = none ∧
    originCityCounts [apLAX] [fToXXX] = [("Los Angeles", 1)] := by
  decide

/-- C6 (amended): for a flight with an endpoint code absent from the
airport reference data, the derived city of that endpoint is absent, the
route label is absent (so the flight contributes to no route aggregate
and no city aggregate on the missing side), and the flight is excluded
from both map visualizations; its other endpoint's city may still feed
the opposite city aggregate. -/
theorem C6_missing_code_excluded (aps : List Airport) (c : String) (f : Flight)
    (fs : List Flight) (sel : Option String)
    (habs : ∀ a ∈ aps, a.iata ≠ c)
    (hor : f.originAirport = c ∨ f.destinationAirport = c) :
    cityMap aps c = none ∧
    routeOf aps f = none ∧
    routeLabels aps (f :: fs) = routeLabels aps fs ∧
    (originCityLabels aps (f :: fs) = originCityLabels aps fs ∨
      destCityLabels aps (f :: fs) = destCityLabels aps fs) ∧
    f ∉ showMapPool aps fs sel ∧
    f ∉ cancelMapPool aps fs := by
  have hcm : cityMap aps c = none := cityMap_eq_none aps c habs
  have hroute : routeOf aps f = none := by
    rcases hor with h | h
    · exact routeOf_eq_none_left aps f (by rw [h]; exact hcm)
    · exact routeOf_eq_none_right aps f (by rw [h]; exact hcm)
  have hmap : mappable aps f = false := mappable_eq_false aps f c habs hor
  refine ⟨hcm, hroute, ?_, ?_, ?_, ?_⟩
  · simp [routeLabels, List.filterMap_cons, hroute]
  · rcases hor with h | h
    · left
      simp [originCityLabels, List.filterMap_cons, h, hcm]
    · right
      simp [destCityLabels, List.filterMap_cons, h, hcm]
  · intro hmem
    have hcond := (List.mem_filter.mp hmem).2
    rw [hmap] at hcond
    cases hcond
  · intro hmem
    have hcond := (List.mem_filter.mp hmem).2
    rw [hmap] at hcond
    cases hcond

/-- C6 witness: with the single-airport table [LAX] and the flight to
the unknown code "XXX", every amended conclusion holds concretely. -/
theorem C6_missing_code_witness :
    cityMap [apLAX] "XXX" = none ∧
    routeOf [apLAX] fToXXX = none ∧
    routeLabels [apLAX] [fToXXX] = routeLabels [apLAX] [] ∧
    (originCityLabels [apLAX] [fToXXX] = originCityLabels [apLAX] [] ∨
      destCityLabels [apLAX] [fToXXX] = destCityLabels [apLAX] []) ∧
    fToXXX ∉ showMapPool [apLAX] [] none ∧
    fToXXX ∉ cancelMapPool [apLAX] [] :=
  C6_missing_code_excluded [apLAX] "XXX" fToXXX [] none (by decide) (Or.inr rfl)

/-- C2: bucket assignments of the code at the claim's example distances.
`pd.cut` defaults to right-closed intervals, so 499 falls in (0,500]
labelled "<500", but 500 also falls in (0,500] and gets "<500" — NOT
"500-999" as the claim and the code's own label names state; 2999 gets
"2500+", -5 falls below every interval (excluded, not clamped), and a
distance-3000 flight is already removed by the `DISTANCE < 3000`
pre-filter. -/
theorem C2_distance_bucket_eval :
    distanceBin 499 = some "<500" ∧
    distanceBin 500 = some "<500" ∧
    distanceBin 2999 = some "2500+" ∧
    distanceBin (-5) = none ∧
    distRows [f3000] 12 = [] := by
  decide

/-- C3: the geo-sample's requested size is computed from the row count
BEFORE the coordinate filter: with one "AA" flight whose airports carry
no coordinates, `show_map` requests min(300, 1) = 1 rows although 0 rows
survive the filter, and the sample call fails (pandas ValueError)
instead of drawing min(300, 0) = 0 rows as the claim states. -/
theorem C3_sample_size_from_prefilter_count :
    showMapSampleSize [fAA] (some "AA") = 1 ∧
    (showMapPool [] [fAA] (some "AA")).length = 0 ∧
    showMapSample [] [fAA] (some "AA") = none := by
  decide

/-- C4: `cancel_map` raises on an empty filtered result set: with one
cancelled flight whose airports carry no coordinates, the
coordinate-filtered population is empty but the code still requests a
size-1 sample, so the call fails (`none`, modelling the pandas
ValueError) instead of yielding an empty output. -/
theorem C4_map_raises_on_empty_filtered :
    cancelMapPool [] [fCX] = [] ∧ cancelMapSample [] [fCX] = none := by
  decide

end FlightDash
